import Mathlib

/-!
Verification of the Trip Planning Core specification against the
TravelApp repository.

The repository's files under version control hold the React frontend
(including the demo mock layer `frontend/src/mock/demoMock.js`, which
serves fixed JSON bodies for every `/api` endpoint when `REACT_APP_MOCK`
is set), the transport display component (`TransportSection`), and the
README describing the backend's transport heuristics.  The backend
planner itself (GeoDistance / RoutingPlanner / TimeBudgetScheduler /
TransportPlanner) is not among the files, so those components are
modelled from the specification where a claim needs them; definitions
carrying a `Modelled from the spec:` doc comment are of that kind, and
every other definition is a direct shallow embedding of the JavaScript
source.

Numeric fields are embedded as rationals (the JSON numbers in the mock
are exact decimals), timestamps as calendar records, and strings as
Lean strings.
-/

/-! ## Data model (JSON shapes served by demoMock.js) -/

/-- One element of `transport_plan.segments` as served by the mocked
`GET /api/travels/.../transport-plan` (demoMock.js lines 582-585).
The JSON field `from` is a Lean keyword, hence `fromCity`/`toCity`. -/
structure TransportSegment where
  fromCity : String
  toCity : String
  method : String
  distance_km : ℚ
  duration_h : ℚ
  estimated_cost : ℚ
  deriving DecidableEq, Repr, Inhabited

/-- The `totals` object of a transport plan (demoMock.js lines 587-592). -/
structure TransportTotals where
  segments : ℕ
  total_distance_km : ℚ
  total_duration_h : ℚ
  total_cost : ℚ
  deriving DecidableEq, Repr

/-- The `transport_plan` object (demoMock.js lines 580-593). -/
structure TransportPlan where
  segments : List TransportSegment
  totals : TransportTotals
  deriving DecidableEq, Repr

/-- The totals invariant of the spec (§3): `totals` is a pure aggregate of
`segments`, field by field. -/
def totalsConsistent (p : TransportPlan) : Prop :=
  p.totals.segments = p.segments.length ∧
  p.totals.total_distance_km = (p.segments.map (·.distance_km)).sum ∧
  p.totals.total_duration_h = (p.segments.map (·.duration_h)).sum ∧
  p.totals.total_cost = (p.segments.map (·.estimated_cost)).sum

/-- The fixed transport plan served by the mocked
`GET /api/travels/.../transport-plan` endpoint, demoMock.js lines 580-593,
embedded value for value. -/
def demoTransportPlan : TransportPlan :=
  { segments :=
      [ { fromCity := "Bangkok", toCity := "Ayutthaya", method := "train",
          distance_km := 80, duration_h := 1.5, estimated_cost := 8 },
        { fromCity := "Ayutthaya", toCity := "Sukhothai", method := "intercity_bus",
          distance_km := 350, duration_h := 4, estimated_cost := 15 },
        { fromCity := "Sukhothai", toCity := "Chiang Mai", method := "intercity_bus",
          distance_km := 300, duration_h := 5, estimated_cost := 20 },
        { fromCity := "Chiang Mai", toCity := "Phuket", method := "flight",
          distance_km := 1200, duration_h := 2, estimated_cost := 120 } ],
    totals :=
      { segments := 4, total_distance_km := 1930,
        total_duration_h := 12.5, total_cost := 163 } }

/-- First segment of the demo plan (Bangkok → Ayutthaya). -/
def demoSeg0 : TransportSegment := demoTransportPlan.segments.headI

/-- Fourth segment of the demo plan (Chiang Mai → Phuket). -/
def demoSeg3 : TransportSegment := (demoTransportPlan.segments.drop 3).headI

/-- The six transport methods of the spec's `TransportSegment` enumeration
(spec §3); written from the spec's words to compare the interface values
against. -/
def specTransportMethods : List String :=
  ["car", "intercity_bus", "train", "flight_short", "flight_long", "boat"]

/-- The keys of `methodLabels` in the frontend transport display component
(src/unnamed/part_014 lines 4-12): the method values the consumer knows a
label for. -/
def methodLabelKeys : List String :=
  ["flight", "train", "intercity_bus", "local_bus", "private_car", "boat", "unknown"]

/-! ## Itinerary, travels and hotels bodies of demoMock.js -/

/-- A coordinate pair as it appears in the mocked itinerary
(demoMock.js, e.g. line 371). -/
structure Coordinate where
  latitude : ℚ
  longitude : ℚ
  deriving DecidableEq, Repr, Inhabited

/-- A UTC instant as written in the mock's ISO-8601 strings,
e.g. `2025-10-04T20:12:00Z` becomes `⟨2025, 10, 4, 20, 12⟩`. -/
structure DateTime where
  year : ℕ
  month : ℕ
  day : ℕ
  hour : ℕ
  minute : ℕ
  deriving DecidableEq, Repr, Inhabited

/-- A calendar date as written in the mock's `YYYY-MM-DD` strings. -/
structure Date where
  year : ℕ
  month : ℕ
  day : ℕ
  deriving DecidableEq, Repr, Inhabited

/-- The date part of an instant. -/
def dateOf (t : DateTime) : Date := ⟨t.year, t.month, t.day⟩

/-- Minutes since the start of the month of `t`.  Every instant in the
demo data lies in October 2025, so differences of this measure are exact
differences of instants. -/
def minutesOfMonth (t : DateTime) : ℕ :=
  (t.day - 1) * 1440 + t.hour * 60 + t.minute

/-- One city entry of the mocked `GET /api/travels/.../itinerary` body
(demoMock.js lines 367-396). -/
structure ItineraryCity where
  name : String
  arrival_dt : DateTime
  departure_dt : DateTime
  coordinates : Coordinate
  deriving DecidableEq, Repr, Inhabited

/-- The five cities of the mocked itinerary, demoMock.js lines 366-397,
embedded value for value. -/
def demoCities : List ItineraryCity :=
  [ { name := "Bangkok",
      arrival_dt := ⟨2025, 10, 1, 18, 42⟩, departure_dt := ⟨2025, 10, 4, 18, 42⟩,
      coordinates := ⟨13.7524938, 100.4935089⟩ },
    { name := "Ayutthaya",
      arrival_dt := ⟨2025, 10, 4, 20, 12⟩, departure_dt := ⟨2025, 10, 6, 20, 12⟩,
      coordinates := ⟨14.3535427, 100.5645684⟩ },
    { name := "Sukhothai",
      arrival_dt := ⟨2025, 10, 7, 0, 12⟩, departure_dt := ⟨2025, 10, 9, 0, 12⟩,
      coordinates := ⟨17.006139, 99.823307⟩ },
    { name := "Chiang Mai",
      arrival_dt := ⟨2025, 10, 9, 5, 12⟩, departure_dt := ⟨2025, 10, 12, 5, 12⟩,
      coordinates := ⟨18.787493, 98.9672428⟩ },
    { name := "Phuket",
      arrival_dt := ⟨2025, 10, 12, 7, 12⟩, departure_dt := ⟨2025, 10, 15, 7, 12⟩,
      coordinates := ⟨7.9366015, 98.3529292⟩ } ]

/-- `total_days` of the demo travel, as served by `GET /api/travels`
(demoMock.js line 45) and `POST /api/travels` (line 58). -/
def demoTravelTotalDays : ℕ := 14

/-- Whole days each demo city is allocated: the length of its
arrival-to-departure window in days (every window is a whole number of
days, see the sanity check below). -/
def demoAllocatedDays : List ℕ :=
  demoCities.map
    (fun c => (minutesOfMonth c.departure_dt - minutesOfMonth c.arrival_dt) / 1440)

/-- The body of the mocked `GET /api/travels/.../itinerary`
(demoMock.js lines 361-400): the one itinerary object of the returned
array.  `generated_at` is filled with `nowIso()` by the source, so it is
a parameter here: the value the clock read returns. -/
structure ItineraryBody where
  id : String
  travel_id : String
  country : String
  cities : List ItineraryCity
  generated_at : String
  deriving DecidableEq, Repr

/-- The mocked itinerary body as a function of the travel id extracted
from the path and of the `nowIso()` clock read (demoMock.js lines 361-400). -/
def itineraryBodyFor (travelId now : String) : ItineraryBody :=
  { id := "it-1", travel_id := travelId, country := "thailand",
    cities := demoCities, generated_at := now }

/-- Everything of an `ItineraryBody` except the `generated_at` field. -/
def itineraryBodyData (b : ItineraryBody) : String × String × String × List ItineraryCity :=
  (b.id, b.travel_id, b.country, b.cities)

/-- One entry of `suggestions` in the mocked
`GET /api/travels/.../hotels/suggestions` body (demoMock.js lines 403-575):
the per-city check-in/check-out window.  The `hotels` arrays carry only
display data (names, areas, price tiers, image links) consumed verbatim by
the UI and are not embedded. -/
structure HotelWindow where
  city : String
  check_in : Date
  check_out : Date
  nights : ℕ
  deriving DecidableEq, Repr, Inhabited

/-- The five suggestion windows of the mocked hotels body, demoMock.js
lines 407-572, embedded value for value. -/
def demoHotelWindows : List HotelWindow :=
  [ { city := "Bangkok", check_in := ⟨2025, 10, 1⟩, check_out := ⟨2025, 10, 4⟩, nights := 3 },
    { city := "Ayutthaya", check_in := ⟨2025, 10, 4⟩, check_out := ⟨2025, 10, 6⟩, nights := 2 },
    { city := "Sukhothai", check_in := ⟨2025, 10, 6⟩, check_out := ⟨2025, 10, 9⟩, nights := 3 },
    { city := "Chiang Mai", check_in := ⟨2025, 10, 9⟩, check_out := ⟨2025, 10, 12⟩, nights := 3 },
    { city := "Phuket", check_in := ⟨2025, 10, 12⟩, check_out := ⟨2025, 10, 15⟩, nights := 3 } ]

/-- The Sukhothai hotel-suggestion window of the mocked hotels body. -/
def demoSukhothaiWindow : HotelWindow := (demoHotelWindows.drop 2).headI

/-- The Sukhothai entry of the mocked itinerary. -/
def demoSukhothaiCity : ItineraryCity := (demoCities.drop 2).headI

/-! ## Spec-modelled planning core

The backend planner (GeoDistance, RoutingPlanner, TimeBudgetScheduler,
TransportPlanner) is not among the repository's files; the definitions
below model it from the specification (§4.3, §4.4, §9) and from the
README's heuristics summary (src/unnamed/part_000, "Transport Plan
(Heuristics)"). -/

/-- Modelled from the spec: a City (§3), `{id, name, coordinates | absent}`. -/
structure City where
  id : String
  name : String
  coordinates : Option Coordinate
  deriving DecidableEq, Repr

/-- Modelled from the spec: the explicit planner configuration of §9,
`PlannerConfig{speeds, overheads, per_km_rates, flat_fees}`, keyed by the
travel mode. -/
structure PlannerConfig where
  speed_kmh : String → ℚ
  overhead_h : String → ℚ
  per_km_rate : String → ℚ
  flat_fee : String → ℚ

/-- Modelled from the spec: mode selection (§4.4), evaluated per leg in
order, first match wins: a home leg flies (short or long haul by the
2000 km threshold); two island endpoints closer than 300 km take a boat;
otherwise the distance tiers `<80 → car`, `<200 → intercity_bus`,
`<700 → train`, `<2000 → flight_short`, `≥2000 → flight_long` apply, with
inclusive lower bounds on the next tier. -/
def selectMethod (homeLeg bothIslands : Bool) (d : ℚ) : String :=
  if homeLeg then
    if d < 2000 then "flight_short" else "flight_long"
  else if bothIslands ∧ d < 300 then "boat"
  else if d < 80 then "car"
  else if d < 200 then "intercity_bus"
  else if d < 700 then "train"
  else if d < 2000 then "flight_short"
  else "flight_long"

/-- Modelled from the spec: one inter-city leg of the TransportPlanner
(§4.4), with the duration model `distance / speed + overhead` and the cost
model `distance * per_km_rate + flat_fee`.  GeoDistance and the island
classifier are the planner's dependencies, passed as functions. -/
def interSegment (dist : City → City → ℚ) (isIsland : City → Bool)
    (cfg : PlannerConfig) (a b : City) : TransportSegment :=
  let d := dist a b
  let m := selectMethod false (isIsland a && isIsland b) d
  { fromCity := a.id, toCity := b.id, method := m, distance_km := d,
    duration_h := d / cfg.speed_kmh m + cfg.overhead_h m,
    estimated_cost := d * cfg.per_km_rate m + cfg.flat_fee m }

/-- Modelled from the spec: a synthetic home leg (§4.4).  With a known
home distance the mode is a flight chosen by distance; with home
coordinates absent the planner falls back to the conservative fixed
default `duration_h = 10`, `estimated_cost = flat_long_haul_fee`. -/
def homeSegment (cfg : PlannerConfig) (homeDist : Option ℚ)
    (fromId toId : String) : TransportSegment :=
  match homeDist with
  | some d =>
    let m := selectMethod true false d
    { fromCity := fromId, toCity := toId, method := m, distance_km := d,
      duration_h := d / cfg.speed_kmh m + cfg.overhead_h m,
      estimated_cost := d * cfg.per_km_rate m + cfg.flat_fee m }
  | none =>
    { fromCity := fromId, toCity := toId, method := "flight_long",
      distance_km := 0, duration_h := 10,
      estimated_cost := cfg.flat_fee "flight_long" }

/-- Modelled from the spec: the segment list of the TransportPlanner for
the non-empty route `c :: rest` (§4.4): the home leg to the first city,
one leg per consecutive city pair, and the home leg from the last city.
`homeDist` gives the home-to-city distance, `none` when home coordinates
are absent. -/
def buildSegments (dist : City → City → ℚ) (isIsland : City → Bool)
    (cfg : PlannerConfig) (homeDist : City → Option ℚ)
    (c : City) (rest : List City) : List TransportSegment :=
  let inter := ((c :: rest).zip rest).map (fun p => interSegment dist isIsland cfg p.1 p.2)
  let lastC := rest.getLastD c
  homeSegment cfg (homeDist c) "HOME" c.id ::
    (inter ++ [homeSegment cfg (homeDist lastC) lastC.id "HOME"])

/-- Modelled from the spec: a TransportPlan is the segments with their
totals, the totals recomputed in full as the aggregate of the segments
(§3). -/
def mkPlan (segs : List TransportSegment) : TransportPlan :=
  { segments := segs,
    totals :=
      { segments := segs.length,
        total_distance_km := (segs.map (·.distance_km)).sum,
        total_duration_h := (segs.map (·.duration_h)).sum,
        total_cost := (segs.map (·.estimated_cost)).sum } }

/-- Modelled from the spec: the TransportPlanner (§4.4): fails on the
empty route, otherwise produces the full plan. -/
def buildTransportPlan (dist : City → City → ℚ) (isIsland : City → Bool)
    (cfg : PlannerConfig) (homeDist : City → Option ℚ) :
    List City → Option TransportPlan
  | [] => none
  | c :: rest => some (mkPlan (buildSegments dist isIsland cfg homeDist c rest))

/-- Modelled from the spec: the TimeBudgetScheduler's allocation policy
(§4.3): each of the `n` cities receives `total_days / n` baseline days,
and the `total_days % n` leftover days go one each to the first cities in
route order. -/
def allocateDays (total_days n : ℕ) : List ℕ :=
  (List.range n).map (fun i => total_days / n + if i < total_days % n then 1 else 0)

/-- Modelled from the spec: the TimeBudgetScheduler's transit accounting
(§4.3), in minutes: each city's departure is its arrival plus its
allocated days, and the next city's arrival is that departure plus the
leg duration.  `allocs` are the allocated day-counts, `legs` the
transport leg durations in minutes ahead of each remaining city. -/
def scheduleFrom : ℕ → List ℕ → List ℕ → List (ℕ × ℕ)
  | arr, d :: ds, leg :: legs =>
    (arr, arr + d * 1440) :: scheduleFrom (arr + d * 1440 + leg) ds legs
  | arr, d :: ds, [] => (arr, arr + d * 1440) :: scheduleFrom (arr + d * 1440) ds []
  | _, [], _ => []

/-! ## Spec-modelled GeoDistance -/

/-- Modelled from the spec: degrees to radians, for the haversine
formula. -/
noncomputable def degRad (x : ℝ) : ℝ := x * Real.pi / 180

/-- Modelled from the spec: the haversine of an angle. -/
noncomputable def hav (θ : ℝ) : ℝ := Real.sin (θ / 2) ^ 2

/-- Modelled from the spec: the haversine term of two coordinates,
`hav Δφ + cos φ₁ · cos φ₂ · hav Δλ`. -/
noncomputable def havTerm (a b : Coordinate) : ℝ :=
  hav (degRad (b.latitude : ℝ) - degRad (a.latitude : ℝ)) +
    Real.cos (degRad (a.latitude : ℝ)) * Real.cos (degRad (b.latitude : ℝ)) *
      hav (degRad (b.longitude : ℝ) - degRad (a.longitude : ℝ))

/-- Modelled from the spec: GeoDistance's `distance` (§4.1),
great-circle distance by the haversine formula on the mean Earth radius
of 6371 km. -/
noncomputable def distance (a b : Coordinate) : ℝ :=
  2 * 6371 * Real.arcsin (Real.sqrt (havTerm a b))

/-! ## The mocked transport-plan endpoint as a function of the path

demoMock.js extracts the travel id from the request path with
`path.match(/\/api\/travels\/([^\/]+)/)` (line 66), falling back to the
demo id, and serves the fixed plan when the path ends with
`/api/travels/{travelId}/transport-plan` and the method is GET
(line 577).  The regex search and the suffix test are embedded over
`List Char`. -/

/-- Removes `pat` from the head of a character list: `some` the remainder
when the list starts with `pat`, else `none`. -/
def chopLeading : List Char → List Char → Option (List Char)
  | [], cs => some cs
  | _ :: _, [] => none
  | p :: ps, c :: cs => if p = c then chopLeading ps cs else none

/-- The first match of `pat` followed by a non-empty run of characters
other than `/`: the capture of the regex `pat([^\/]+)` searched anywhere
in the list, as demoMock.js line 66 does. -/
def searchCapture (pat : List Char) : List Char → Option (List Char)
  | [] => none
  | c :: cs =>
    match chopLeading pat (c :: cs) with
    | some rest =>
      match rest.takeWhile (· != '/') with
      | [] => searchCapture pat cs
      | cap => some cap
    | none => searchCapture pat cs

/-- Whether `cs` ends with `pat`, as `String.prototype.endsWith` used on
demoMock.js line 577. -/
def endsWithChars (cs pat : List Char) : Bool :=
  (chopLeading pat.reverse cs.reverse).isSome

/-- The demo travel id, demoMock.js line 22. -/
def demoTravelId : String := "68dd74bcaafe454913a15d54"

/-- The characters of `/api/travels/`, the pattern of the travel-id regex
on demoMock.js line 66. -/
def apiTravelsPat : List Char := "/api/travels/".toList

/-- The travel id demoMock.js line 66-67 reads off the path: the regex
capture when the path holds one, else the demo travel id. -/
def travelIdOf (path : List Char) : List Char :=
  (searchCapture apiTravelsPat path).getD demoTravelId.toList

/-- The body of the mocked `GET /api/travels/.../transport-plan`
response (demoMock.js lines 578-594): the echoed travel id and the fixed
plan. -/
structure TransportPlanBody where
  travel_id : String
  transport_plan : TransportPlan
  deriving DecidableEq, Repr

/-- The mocked transport-plan body for a travel id. -/
def transportPlanBodyFor (tid : String) : TransportPlanBody :=
  { travel_id := tid, transport_plan := demoTransportPlan }

/-- The transport-plan branch of `buildMockBodyFor` (demoMock.js lines
66-67 and 577-595): extract the travel id from the path, and serve the
fixed body when the path ends with
`/api/travels/{travelId}/transport-plan` and the method is `GET`. -/
def transportPlanGET (path : List Char) (method : String) : Option TransportPlanBody :=
  let tid := travelIdOf path
  if method = "GET" ∧ endsWithChars path (apiTravelsPat ++ tid ++ "/transport-plan".toList) = true
  then some (transportPlanBodyFor tid.asString)
  else none

/-- The full request path of the mocked transport-plan endpoint for a
travel id, `/api/travels/{id}/transport-plan` (the template on
demoMock.js line 577). -/
def mkTransportPath (id : List Char) : List Char :=
  apiTravelsPat ++ id ++ "/transport-plan".toList

/-! ## Theorems -/

/-! Sanity checks: concrete evaluations of the embedded definitions. -/

example : demoAllocatedDays = [3, 2, 2, 3, 3] := by decide
example : demoCities.all
    (fun c => (minutesOfMonth c.departure_dt - minutesOfMonth c.arrival_dt) % 1440 = 0) = true := by
  decide
example : allocateDays 9 3 = [3, 3, 3] := by decide
example : scheduleFrom 0 [2, 1] [60] = [(0, 2880), (2940, 4380)] := by decide
example :
    transportPlanGET "/api/travels/abc/transport-plan".toList "GET" =
      some (transportPlanBodyFor "abc") := by rfl
example : transportPlanGET "/api/travels/abc/chat".toList "GET" = none := by rfl
example : transportPlanGET "/api/travels/abc/transport-plan".toList "POST" = none := by rfl

/-- C1: for every TransportPlan produced — the demo plan served by the
mocked `GET /api/travels/.../transport-plan` endpoint, and every plan the
(spec-modelled) TransportPlanner builds — `totals.segments` is the number
of segments and the three total fields are the sums of the segments'
`distance_km`, `duration_h` and `estimated_cost`. -/
theorem transport_totals_invariant :
    totalsConsistent demoTransportPlan ∧
    (∀ (dist : City → City → ℚ) (isIsland : City → Bool) (cfg : PlannerConfig)
        (homeDist : City → Option ℚ) (c : City) (rest : List City),
      totalsConsistent (mkPlan (buildSegments dist isIsland cfg homeDist c rest)) ∧
      buildTransportPlan dist isIsland cfg homeDist (c :: rest) =
        some (mkPlan (buildSegments dist isIsland cfg homeDist c rest))) := by
  constructor
  · refine ⟨rfl, ?_, ?_, ?_⟩ <;> norm_num [demoTransportPlan]
  · intro dist isIsland cfg homeDist c rest
    exact ⟨⟨rfl, rfl, rfl, rfl⟩, rfl⟩

/-- C2 counterexample: the first leg of the demo transport plan
(Bangkok → Ayutthaya) is exactly 80 km yet carries method `train`, not
the `intercity_bus` the distance tiers prescribe at 80 km. -/
theorem demo_leg_80km_method_train :
    demoSeg0.distance_km = 80 ∧ demoSeg0.method = "train" ∧
    selectMethod false false 80 = "intercity_bus" ∧
    demoSeg0.method ≠ "intercity_bus" := by decide

/-- C2 (amended): the spec-modelled mode selection follows the distance
tiers with inclusive lower bounds on the next tier — `<80 → car`,
`80..200 → intercity_bus`, `200..700 → train`, `700..2000 → flight_short`,
`≥2000 → flight_long` — for non-home legs whose endpoints are not both
islands; in particular 80 km gives `intercity_bus`, 300 km and 350 km give
`train`, and 2000 km gives `flight_long`.  The hard-coded demo plan does
not follow these tiers (see the counterexample). -/
theorem selectMethod_distance_tiers (d : ℚ) :
    (d < 80 → selectMethod false false d = "car") ∧
    (80 ≤ d → d < 200 → selectMethod false false d = "intercity_bus") ∧
    (200 ≤ d → d < 700 → selectMethod false false d = "train") ∧
    (700 ≤ d → d < 2000 → selectMethod false false d = "flight_short") ∧
    (2000 ≤ d → selectMethod false false d = "flight_long") ∧
    selectMethod false false 80 = "intercity_bus" ∧
    selectMethod false false 300 = "train" ∧
    selectMethod false false 350 = "train" ∧
    selectMethod false false 2000 = "flight_long" := by
  refine ⟨?_, ?_, ?_, ?_, ?_, by decide, by decide, by decide, by decide⟩
  · intro h
    rw [selectMethod, if_neg (by simp), if_neg (by simp), if_pos h]
  · intro h1 h2
    rw [selectMethod, if_neg (by simp), if_neg (by simp),
      if_neg (not_lt.mpr (by linarith)), if_pos h2]
  · intro h1 h2
    rw [selectMethod, if_neg (by simp), if_neg (by simp),
      if_neg (not_lt.mpr (by linarith)), if_neg (not_lt.mpr (by linarith)), if_pos h2]
  · intro h1 h2
    rw [selectMethod, if_neg (by simp), if_neg (by simp),
      if_neg (not_lt.mpr (by linarith)), if_neg (not_lt.mpr (by linarith)),
      if_neg (not_lt.mpr (by linarith)), if_pos h2]
  · intro h1
    rw [selectMethod, if_neg (by simp), if_neg (by simp),
      if_neg (not_lt.mpr (by linarith)), if_neg (not_lt.mpr (by linarith)),
      if_neg (not_lt.mpr (by linarith)), if_neg (not_lt.mpr (by linarith))]

/-- C3 counterexample: the plan served for the demo 5-city route has 4
segments, not 6, and none of them is a home leg. -/
theorem demo_plan_four_segments_no_home :
    demoTransportPlan.segments.length = 4 ∧
    demoCities.length = 5 ∧
    demoTransportPlan.segments.length ≠ demoCities.length + 1 ∧
    demoTransportPlan.segments.all
      (fun s => s.fromCity ≠ "HOME" ∧ s.toCity ≠ "HOME") = true := by decide

/-- C3 (amended): every plan the spec-modelled TransportPlanner builds for
a route of n ≥ 1 cities has exactly n + 1 segments (two home legs plus
n - 1 inter-city legs; 2 segments when n = 1) — but the fixed demo plan
served by the mock has only n - 1 = 4 segments and no home legs (see the
counterexample). -/
theorem buildTransportPlan_segment_count :
    ∀ (dist : City → City → ℚ) (isIsland : City → Bool) (cfg : PlannerConfig)
      (homeDist : City → Option ℚ) (c : City) (rest : List City),
      (mkPlan (buildSegments dist isIsland cfg homeDist c rest)).segments.length =
        (c :: rest).length + 1 := by
  intro dist isIsland cfg homeDist c rest
  simp [mkPlan, buildSegments, List.length_zip]

/-- C6 counterexample: the fourth segment of the demo plan carries method
`flight`, which is not one of the spec's six enumeration values. -/
theorem demo_plan_flight_method_outside_enum :
    demoSeg3.method = "flight" ∧
    "flight" ∉ specTransportMethods ∧
    demoSeg3.method ∉ specTransportMethods := by decide

/-- C6 (amended): the spec-modelled mode selection only ever produces
values of the spec's six-method enumeration, but the public mocked
interface also carries the value `flight` (outside that enumeration);
every method value of the demo plan is one the consumer's `methodLabels`
table (TransportSection) knows a label for. -/
theorem methods_enum_vs_consumer_labels :
    (∀ (homeLeg bothIslands : Bool) (d : ℚ),
      selectMethod homeLeg bothIslands d ∈ specTransportMethods) ∧
    demoTransportPlan.segments.all (fun s => s.method ∈ methodLabelKeys) = true ∧
    ¬ demoTransportPlan.segments.all (fun s => s.method ∈ specTransportMethods) = true := by
  refine ⟨?_, by decide, by decide⟩
  intro homeLeg bothIslands d
  rw [selectMethod]
  split_ifs <;> decide

/-- C7 counterexample: the mocked itinerary body embeds the `nowIso()`
clock read as `generated_at`, so two invocations of the same request at
different instants return different bodies — responses are not
byte-identical across repeated identical requests. -/
theorem itinerary_generated_at_clock_dependent :
    (itineraryBodyFor demoTravelId "2025-10-01T18:00:00.000Z").generated_at ≠
      (itineraryBodyFor demoTravelId "2025-10-01T18:00:01.000Z").generated_at ∧
    itineraryBodyFor demoTravelId "2025-10-01T18:00:00.000Z" ≠
      itineraryBodyFor demoTravelId "2025-10-01T18:00:01.000Z" := by
  refine ⟨by decide, fun h => ?_⟩
  exact absurd (congrArg ItineraryBody.generated_at h) (by decide)

/-- C7 (amended): the mocked planning responses are deterministic in all
data fields — the itinerary body's id, travel id, country and city
schedule do not depend on the clock read, and the transport-plan body is
a pure function of the travel id — but the itinerary body is not
byte-identical across invocations, because its `generated_at` field
echoes the `nowIso()` wall-clock read (see the counterexample). -/
theorem itinerary_data_deterministic (tid n1 n2 : String) :
    itineraryBodyData (itineraryBodyFor tid n1) = itineraryBodyData (itineraryBodyFor tid n2) ∧
    (itineraryBodyFor tid n1).generated_at = n1 ∧
    transportPlanBodyFor tid = { travel_id := tid, transport_plan := demoTransportPlan } :=
  ⟨rfl, rfl, rfl⟩

/-- Appending one more copy to a replicate list. -/
lemma replicate_append_one {α : Type} (n : ℕ) (a : α) :
    List.replicate n a ++ [a] = List.replicate (n + 1) a :=
  (List.replicate_succ' n a).symm

/-- The range-with-leftover map underlying `allocateDays` is a block of
`q + 1`s followed by a block of `q`s. -/
lemma range_map_leftover (q r : ℕ) :
    ∀ k : ℕ,
      (List.range k).map (fun i => q + if i < r then 1 else 0) =
        List.replicate (min k r) (q + 1) ++ List.replicate (k - r) q := by
  intro k
  induction k with
  | zero => simp
  | succ m ih =>
    rw [List.range_succ, List.map_append, ih]
    by_cases h : m < r
    · have hm : min m r = m := Nat.min_eq_left (Nat.le_of_lt h)
      have hm1 : min (m + 1) r = m + 1 := Nat.min_eq_left h
      have hz : m - r = 0 := Nat.sub_eq_zero_of_le (Nat.le_of_lt h)
      have hz1 : m + 1 - r = 0 := Nat.sub_eq_zero_of_le h
      simp only [List.map_cons, List.map_nil, if_pos h, hm, hm1, hz, hz1,
        List.replicate_zero, List.append_nil]
      exact replicate_append_one m (q + 1)
    · have hr : r ≤ m := Nat.le_of_not_lt h
      have hm : min m r = r := Nat.min_eq_right hr
      have hm1 : min (m + 1) r = r := Nat.min_eq_right (Nat.le_succ_of_le hr)
      simp only [List.map_cons, List.map_nil, if_neg h, Nat.add_zero, hm, hm1,
        List.append_assoc]
      rw [replicate_append_one, Nat.succ_sub hr]

/-- C4 counterexample: the demo travel has `total_days = 14` over 5
cities, but the mocked itinerary allocates (3, 2, 2, 3, 3) days in route
order — summing to 13, not 14, and not the (3, 3, 3, 3, 2) the
first-cities-get-the-leftover policy prescribes. -/
theorem demo_allocation_not_floor_leftover :
    demoAllocatedDays = [3, 2, 2, 3, 3] ∧
    demoAllocatedDays.sum = 13 ∧
    demoTravelTotalDays = 14 ∧
    demoAllocatedDays.sum ≠ demoTravelTotalDays ∧
    demoAllocatedDays ≠ allocateDays demoTravelTotalDays demoAllocatedDays.length := by
  decide

/-- C4 (amended): the spec-modelled allocator gives each of the n cities
a baseline of `D / n` days and one leftover day to each of the first
`D % n` cities in route order, so the allocation sums to exactly D; a
14-day, 5-city trip allocates (3, 3, 3, 3, 2).  The hard-coded demo
itinerary does not follow this allocation (see the counterexample). -/
theorem allocateDays_floor_and_leftover (D n : ℕ) (hn : 0 < n) :
    allocateDays D n =
      List.replicate (D % n) (D / n + 1) ++ List.replicate (n - D % n) (D / n) ∧
    (allocateDays D n).sum = D ∧
    allocateDays 14 5 = [3, 3, 3, 3, 2] ∧
    (allocateDays 14 5).sum = 14 := by
  have hr : D % n < n := Nat.mod_lt _ hn
  have hchar :
      allocateDays D n =
        List.replicate (D % n) (D / n + 1) ++ List.replicate (n - D % n) (D / n) := by
    rw [allocateDays, range_map_leftover, Nat.min_eq_right (Nat.le_of_lt hr)]
  refine ⟨hchar, ?_, by decide, by decide⟩
  rw [hchar]
  rw [List.sum_append, List.sum_replicate, List.sum_replicate, smul_eq_mul, smul_eq_mul]
  have hkey : n * (D / n) + D % n = D := Nat.div_add_mod D n
  have hle : D % n * (D / n) ≤ n * (D / n) :=
    Nat.mul_le_mul_right _ (Nat.le_of_lt hr)
  rw [Nat.sub_mul, Nat.mul_add, Nat.mul_one]
  generalize hA : D % n * (D / n) = A at *
  generalize hB : n * (D / n) = B at *
  omega

/-- C4 witness: the 14-day, 5-city instance — four cities get 3 days,
the last gets 2, and the allocation sums to 14. -/
theorem allocateDays_floor_and_leftover_witness :
    allocateDays 14 5 =
      List.replicate (14 % 5) (14 / 5 + 1) ++ List.replicate (5 - 14 % 5) (14 / 5) ∧
    (allocateDays 14 5).sum = 14 ∧
    allocateDays 14 5 = [3, 3, 3, 3, 2] ∧
    (allocateDays 14 5).sum = 14 :=
  allocateDays_floor_and_leftover 14 5 (by decide)

/-- The first entry of a non-empty spec-modelled schedule arrives at the
given start instant. -/
lemma scheduleFrom_head_arrival :
    ∀ (ds legs : List ℕ) (s : ℕ) (h : 0 < (scheduleFrom s ds legs).length),
      ((scheduleFrom s ds legs).get ⟨0, h⟩).1 = s := by
  intro ds legs s h
  match ds, legs with
  | [], _ => simp [scheduleFrom] at h
  | d :: ds, [] => rfl
  | d :: ds, leg :: legs => rfl

/-- In a spec-modelled schedule, each next arrival is the previous
departure plus the leg duration. -/
lemma scheduleFrom_step :
    ∀ (ds : List ℕ) (legs : List ℕ) (s i : ℕ)
      (h1 : i + 1 < (scheduleFrom s ds legs).length) (h2 : i < legs.length),
      ((scheduleFrom s ds legs).get ⟨i + 1, h1⟩).1 =
        ((scheduleFrom s ds legs).get ⟨i, Nat.lt_of_succ_lt h1⟩).2 +
          legs.get ⟨i, h2⟩ := by
  intro ds
  induction ds with
  | nil =>
    intro legs s i h1 h2
    simp [scheduleFrom] at h1
  | cons d ds ih =>
    intro legs s i h1 h2
    match legs with
    | [] => exact absurd h2 (Nat.not_lt_zero i)
    | leg :: legs =>
      match i with
      | 0 =>
        have htail : 0 < (scheduleFrom (s + d * 1440 + leg) ds legs).length := by
          have := h1
          simpa [scheduleFrom] using this
        simpa [scheduleFrom] using scheduleFrom_head_arrival ds legs (s + d * 1440 + leg) htail
      | j + 1 =>
        have h1' : j + 1 < (scheduleFrom (s + d * 1440 + leg) ds legs).length := by
          simpa [scheduleFrom] using h1
        have h2' : j < legs.length := Nat.lt_of_succ_lt_succ h2
        simpa [scheduleFrom] using ih legs (s + d * 1440 + leg) j h1' h2'

/-- C5: consecutive arrivals follow departures plus the leg duration.
In the spec-modelled scheduler this holds for every schedule it builds;
in the demo data, each city's arrival instant equals the previous city's
departure instant plus the matching demo transport segment's `duration_h`
(e.g. Ayutthaya's 2025-10-06T20:12 departure plus the 4-hour leg gives
Sukhothai's 2025-10-07T00:12 arrival). -/
theorem arrival_eq_departure_plus_leg :
    (∀ (ds legs : List ℕ) (s i : ℕ)
        (h1 : i + 1 < (scheduleFrom s ds legs).length) (h2 : i < legs.length),
      ((scheduleFrom s ds legs).get ⟨i + 1, h1⟩).1 =
        ((scheduleFrom s ds legs).get ⟨i, Nat.lt_of_succ_lt h1⟩).2 +
          legs.get ⟨i, h2⟩) ∧
    (∀ (i : ℕ) (h1 : i + 1 < demoCities.length)
        (h2 : i < demoTransportPlan.segments.length),
      (minutesOfMonth (demoCities.get ⟨i + 1, h1⟩).arrival_dt : ℚ) =
        (minutesOfMonth (demoCities.get ⟨i, Nat.lt_of_succ_lt h1⟩).departure_dt : ℚ) +
          60 * (demoTransportPlan.segments.get ⟨i, h2⟩).duration_h) := by
  constructor
  · exact scheduleFrom_step
  · intro i h1 h2
    have h4 : i < 4 := by
      have h5 : i + 1 < 5 := by simpa [demoCities] using h1
      omega
    interval_cases i <;>
      norm_num [demoCities, demoTransportPlan, minutesOfMonth]

/-- C5 witness: the Ayutthaya → Sukhothai instance — departure
2025-10-06T20:12 plus the 4-hour segment gives the Sukhothai arrival
2025-10-07T00:12. -/
theorem arrival_eq_departure_plus_leg_witness :
    (minutesOfMonth (demoCities.get ⟨2, by decide⟩).arrival_dt : ℚ) =
      (minutesOfMonth (demoCities.get ⟨1, by decide⟩).departure_dt : ℚ) +
        60 * (demoTransportPlan.segments.get ⟨1, by decide⟩).duration_h :=
  arrival_eq_departure_plus_leg.2 1 (by decide) (by decide)


/-- C8 counterexample: the Sukhothai hotel suggestion opens on
2025-10-06, one day before the date of Sukhothai's scheduled arrival,
2025-10-07T00:12. -/
theorem sukhothai_checkin_before_arrival_date :
    demoSukhothaiWindow.city = "Sukhothai" ∧
    demoSukhothaiCity.name = "Sukhothai" ∧
    demoSukhothaiWindow.check_in = ⟨2025, 10, 6⟩ ∧
    dateOf demoSukhothaiCity.arrival_dt = ⟨2025, 10, 7⟩ ∧
    demoSukhothaiWindow.check_in ≠ dateOf demoSukhothaiCity.arrival_dt := by
  decide

/-- C8 (amended): each demo hotel-suggestion window matches the city's
schedule entry — its check-out is the date of the city's departure and
its nights count is the day span between check-in and check-out — and its
check-in is the date of the city's arrival for every city except
Sukhothai, whose window opens one day before its 00:12 arrival (see the
counterexample). -/
theorem hotel_windows_follow_schedule (i : ℕ)
    (h1 : i < demoHotelWindows.length) (h2 : i < demoCities.length) :
    (demoHotelWindows.get ⟨i, h1⟩).city = (demoCities.get ⟨i, h2⟩).name ∧
    (demoHotelWindows.get ⟨i, h1⟩).check_out =
      dateOf (demoCities.get ⟨i, h2⟩).departure_dt ∧
    (demoHotelWindows.get ⟨i, h1⟩).check_out.day =
      (demoHotelWindows.get ⟨i, h1⟩).check_in.day +
        (demoHotelWindows.get ⟨i, h1⟩).nights ∧
    (i ≠ 2 →
      (demoHotelWindows.get ⟨i, h1⟩).check_in =
        dateOf (demoCities.get ⟨i, h2⟩).arrival_dt) ∧
    (i = 2 →
      (demoHotelWindows.get ⟨i, h1⟩).check_in.day + 1 =
        (dateOf (demoCities.get ⟨i, h2⟩).arrival_dt).day) := by
  have h5 : i < 5 := by simpa [demoHotelWindows] using h1
  interval_cases i <;> exact of_decide_eq_true rfl

/-- C8 witness: the Bangkok window — check-in 2025-10-01 (arrival date),
check-out 2025-10-04 (departure date), 3 nights. -/
theorem hotel_windows_follow_schedule_witness :
    (demoHotelWindows.get ⟨0, by decide⟩).city = (demoCities.get ⟨0, by decide⟩).name ∧
    (demoHotelWindows.get ⟨0, by decide⟩).check_out =
      dateOf (demoCities.get ⟨0, by decide⟩).departure_dt ∧
    (demoHotelWindows.get ⟨0, by decide⟩).check_out.day =
      (demoHotelWindows.get ⟨0, by decide⟩).check_in.day +
        (demoHotelWindows.get ⟨0, by decide⟩).nights ∧
    ((0 : ℕ) ≠ 2 →
      (demoHotelWindows.get ⟨0, by decide⟩).check_in =
        dateOf (demoCities.get ⟨0, by decide⟩).arrival_dt) ∧
    ((0 : ℕ) = 2 →
      (demoHotelWindows.get ⟨0, by decide⟩).check_in.day + 1 =
        (dateOf (demoCities.get ⟨0, by decide⟩).arrival_dt).day) :=
  hotel_windows_follow_schedule 0 (by decide) (by decide)

/-- The haversine is even. -/
lemma hav_neg (θ : ℝ) : hav (-θ) = hav θ := by
  unfold hav
  rw [neg_div, Real.sin_neg]
  ring

/-- The haversine of a difference does not depend on the order. -/
lemma hav_sub_comm (x y : ℝ) : hav (x - y) = hav (y - x) := by
  rw [← neg_sub y x, hav_neg]

/-- The haversine term is symmetric in its two coordinates. -/
lemma havTerm_comm (a b : Coordinate) : havTerm a b = havTerm b a := by
  unfold havTerm
  rw [hav_sub_comm (degRad (b.latitude : ℝ)) (degRad (a.latitude : ℝ)),
    hav_sub_comm (degRad (b.longitude : ℝ)) (degRad (a.longitude : ℝ))]
  ring

/-- The haversine term of a coordinate with itself vanishes. -/
lemma havTerm_self (a : Coordinate) : havTerm a a = 0 := by
  simp [havTerm, hav]

/-- C9: the spec-modelled GeoDistance is symmetric and zero on the
diagonal: `distance a b = distance b a` for any two coordinates, and
`distance a a = 0`. -/
theorem distance_symm_and_diag_zero :
    (∀ a b : Coordinate, distance a b = distance b a) ∧
    (∀ a : Coordinate, distance a a = 0) := by
  constructor
  · intro a b
    unfold distance
    rw [havTerm_comm]
  · intro a
    unfold distance
    rw [havTerm_self]
    simp

/-- `chopLeading` removes exactly the leading copy of its pattern. -/
lemma chopLeading_append (l rest : List Char) :
    chopLeading l (l ++ rest) = some rest := by
  induction l with
  | nil => rfl
  | cons p ps ih => simp [chopLeading, ih]

/-- A list ends with itself. -/
lemma endsWithChars_self (l : List Char) : endsWithChars l l = true := by
  have h : chopLeading l.reverse (l.reverse ++ []) = some [] :=
    chopLeading_append l.reverse []
  rw [List.append_nil] at h
  simp [endsWithChars, h]

/-- `takeWhile (· != '/')` on a clean block followed by a slash returns
exactly the block. -/
lemma takeWhile_clean (l1 l2 : List Char) (h : ∀ c ∈ l1, c ≠ '/') :
    List.takeWhile (· != '/') (l1 ++ '/' :: l2) = l1 := by
  induction l1 with
  | nil => simp [List.takeWhile]
  | cons a l1 ih =>
    have ha : (a != '/') = true := by
      simpa using h a (List.mem_cons_self a l1)
    simp only [List.cons_append, List.takeWhile_cons, ha, if_true]
    rw [ih (fun c hc => h c (List.mem_cons_of_mem a hc))]

/-- The travel-id regex capture on a well-formed path: searching
`pat([^\/]+)` in `pat ++ id ++ '/' :: sfx` captures exactly `id` when
`id` is non-empty and slash-free. -/
lemma searchCapture_append (p : Char) (ps id sfx : List Char)
    (hid : id ≠ []) (hclean : ∀ c ∈ id, c ≠ '/') :
    searchCapture (p :: ps) ((p :: ps) ++ (id ++ '/' :: sfx)) = some id := by
  obtain ⟨a, as, rfl⟩ : ∃ a as, id = a :: as := by
    cases id with
    | nil => exact absurd rfl hid
    | cons a as => exact ⟨a, as, rfl⟩
  have hchop :
      chopLeading (p :: ps) (p :: (ps ++ (a :: (as ++ '/' :: sfx)))) =
        some (a :: (as ++ '/' :: sfx)) :=
    chopLeading_append (p :: ps) (a :: (as ++ '/' :: sfx))
  have htake :
      List.takeWhile (· != '/') (a :: (as ++ '/' :: sfx)) = a :: as :=
    takeWhile_clean (a :: as) sfx hclean
  show searchCapture (p :: ps) (p :: (ps ++ (a :: (as ++ '/' :: sfx)))) = some (a :: as)
  rw [searchCapture, hchop]
  simp only [htake]

/-- On a well-formed transport-plan path, the extracted travel id is the
id the path was built from. -/
lemma travelIdOf_mkTransportPath (id : List Char)
    (hid : id ≠ []) (hclean : ∀ c ∈ id, c ≠ '/') :
    travelIdOf (mkTransportPath id) = id := by
  have hpath :
      mkTransportPath id =
        ('/' :: "api/travels/".toList) ++ (id ++ '/' :: "transport-plan".toList) := by
    simp [mkTransportPath, apiTravelsPat, List.append_assoc]
  have hpat : apiTravelsPat = '/' :: "api/travels/".toList := rfl
  rw [travelIdOf, hpath, hpat,
    searchCapture_append '/' "api/travels/".toList id "transport-plan".toList hid hclean]
  rfl

/-- The mocked transport-plan endpoint serves the one fixed plan for any
well-formed travel id, echoing only the id. -/
lemma transportPlanGET_mkTransportPath (id : List Char)
    (hid : id ≠ []) (hclean : ∀ c ∈ id, c ≠ '/') :
    transportPlanGET (mkTransportPath id) "GET" =
      some { travel_id := id.asString, transport_plan := demoTransportPlan } := by
  rw [transportPlanGET, travelIdOf_mkTransportPath id hid hclean]
  rw [if_pos ⟨rfl, endsWithChars_self (mkTransportPath id)⟩]
  rfl

/-- C10: the mocked transport-plan endpoint is insensitive to the travel
id: for any two non-empty slash-free travel ids, the two GET responses
carry the identical fixed 4-segment plan (and totals) and differ only in
the echoed `travel_id` field. -/
theorem transportPlan_endpoint_id_noninterference
    (id1 id2 : List Char) (h1 : id1 ≠ []) (h2 : id2 ≠ [])
    (hc1 : ∀ c ∈ id1, c ≠ '/') (hc2 : ∀ c ∈ id2, c ≠ '/') :
    transportPlanGET (mkTransportPath id1) "GET" =
      some { travel_id := id1.asString, transport_plan := demoTransportPlan } ∧
    transportPlanGET (mkTransportPath id2) "GET" =
      some { travel_id := id2.asString, transport_plan := demoTransportPlan } ∧
    (transportPlanBodyFor id1.asString).transport_plan =
      (transportPlanBodyFor id2.asString).transport_plan :=
  ⟨transportPlanGET_mkTransportPath id1 h1 hc1,
   transportPlanGET_mkTransportPath id2 h2 hc2, rfl⟩

/-- C10 witness: the demo travel id and another id receive the same
fixed plan, differing only in the echoed `travel_id`. -/
theorem transportPlan_endpoint_id_noninterference_witness :
    transportPlanGET (mkTransportPath demoTravelId.toList) "GET" =
      some { travel_id := demoTravelId.toList.asString,
             transport_plan := demoTransportPlan } ∧
    transportPlanGET (mkTransportPath "another-travel".toList) "GET" =
      some { travel_id := ("another-travel".toList).asString,
             transport_plan := demoTransportPlan } ∧
    (transportPlanBodyFor demoTravelId.toList.asString).transport_plan =
      (transportPlanBodyFor ("another-travel".toList).asString).transport_plan :=
  transportPlan_endpoint_id_noninterference demoTravelId.toList "another-travel".toList
    (by decide) (by decide) (by decide) (by decide)
